import Mathlib

/-!
Verification of the LiveScribe WebSocket transcription server
(`src/LiveScribe/PythonServer/server.py`), shallowly embedded in Lean.

The per-connection handler (`handler`, server.py lines 104-166) is modelled as a
step function on the per-connection `Session` state, processing one inbound
message at a time, together with a `run` function folding the step over a list
of inbound messages.  A float32 sample is represented by its four little-endian
bytes (no claim depends on sample arithmetic, only on sample counts and
sequences).  The external recognition engine (`transcriber.transcribe`) is an
opaque parameter that either returns a text or raises.  Python exceptions that
the handler does not catch (and which therefore terminate the handler and close
the connection) are modelled as a `fault` outcome carrying the session state and
the frames sent so far.
-/

namespace LiveScribe

/-- A float32 sample, represented by its four little-endian bytes exactly as it
travels in a binary frame.  `np.frombuffer(message, dtype = lef4)` turns each
consecutive 4-byte group of the payload into one sample. -/
abbrev Sample := UInt8 × UInt8 × UInt8 × UInt8

/-- `SAMPLE_RATE = 16_000` (transcriber.py line 17). -/
def SAMPLE_RATE : Nat := 16000

/-- `OVERLAP_SAMPLES = int(SAMPLE_RATE * 0.15)` (server.py line 77), i.e. 2400. -/
def OVERLAP_SAMPLES : Nat := SAMPLE_RATE * 15 / 100

/-- Per-connection session state (server.py lines 84-97):
`active` flag and the `overlap` carry-over samples. -/
structure Session where
  active : Bool
  overlap : List Sample
  deriving Repr, DecidableEq

/-- `Session.__init__`: `active = False`, `overlap = []` (server.py lines 87-89). -/
def Session.init : Session := { active := false, overlap := [] }

/-- `Session.reset`: `active = True`, `overlap = []` (server.py lines 91-93). -/
def Session.reset (_s : Session) : Session := { active := true, overlap := [] }

/-- `Session.stop`: `active = False`, `overlap = []` (server.py lines 95-97). -/
def Session.stop (_s : Session) : Session := { active := false, overlap := [] }

/-- Frames the server can send to a client (server.py docstring lines 12-15 and
the `_send` call sites in `handler`). -/
inductive Frame where
  | ready
  | transcript (text : String) (is_final : Bool)
  | error (message : String)
  deriving Repr, DecidableEq

/-- Result of running `json.loads` on an inbound text message, classified by the
only distinctions the handler code observes (server.py lines 114-126):
the parse raises `JSONDecodeError` (`malformed`); it yields a JSON object, on
which `cmd.get` returns the value of its `type` key (`object ty` — `ty = none`
when the key is absent or its value is not a string, which compares unequal to
both command strings just like an unrecognized string); or it yields a non-object
JSON value, on which the attribute access `cmd.get` raises `AttributeError`
(`nonObject`). -/
inductive ControlParse where
  | malformed
  | object (ty : Option String)
  | nonObject
  deriving Repr, DecidableEq

/-- One inbound WebSocket message: a text control message (represented by its
parse classification) or a binary audio payload of raw bytes. -/
inductive Msg where
  | text (p : ControlParse)
  | binary (payload : List UInt8)
  deriving Repr, DecidableEq

/-- The external engine: `transcriber.transcribe(audio)` either returns a text
(`Except.ok`) or raises (`Except.error`). -/
abbrev Engine := List Sample → Except String String

/-- Outcome of processing one inbound message: `ok` continues the loop with the
new session state, the frames sent and the audio buffers passed to the engine;
`fault` is an uncaught Python exception terminating the handler (the `try` at
server.py line 110 only catches connection-closed exceptions), carrying the
session state at the raise point and whatever was sent before it. -/
inductive StepResult where
  | ok (s : Session) (sent : List Frame) (calls : List (List Sample))
  | fault (s : Session) (sent : List Frame) (calls : List (List Sample)) (exn : String)
  deriving Repr, DecidableEq

/-- Session state of a step outcome (at the raise point for a fault). -/
def StepResult.stateOf : StepResult → Session
  | .ok s _ _ => s
  | .fault s _ _ _ => s

/-- Frames sent during a step. -/
def StepResult.sentOf : StepResult → List Frame
  | .ok _ sent _ => sent
  | .fault _ sent _ _ => sent

/-- Audio buffers passed to the engine during a step. -/
def StepResult.callsOf : StepResult → List (List Sample)
  | .ok _ _ calls => calls
  | .fault _ _ calls _ => calls

/-- Whether the step raised an uncaught exception. -/
def StepResult.isFault : StepResult → Bool
  | .ok _ _ _ => false
  | .fault _ _ _ _ => true

/-- `np.frombuffer(message, dtype = lef4)` decodes consecutive 4-byte groups into
samples, ignoring a trailing group of fewer than 4 bytes (the multiple-of-4
check is in `frombuffer`). -/
def group4 : List UInt8 → List Sample
  | b0 :: b1 :: b2 :: b3 :: rest => (b0, b1, b2, b3) :: group4 rest
  | _ => []

/-- `np.frombuffer` (server.py line 138): raises `ValueError` when the buffer
length is not a multiple of the 4-byte element size (the call passes no
`count` argument), otherwise decodes every 4-byte group.  The subsequent
`.astype(np.float32)` is a same-width copy and does not change the samples. -/
def frombuffer (payload : List UInt8) : Except String (List Sample) :=
  if payload.length % 4 = 0 then Except.ok (group4 payload)
  else Except.error "buffer size must be a multiple of element size"

/-- The overlap update `chunk[-OVERLAP_SAMPLES:] if len(chunk) >= OVERLAP_SAMPLES
else chunk` (server.py line 148). -/
def codeOverlapUpdate (chunk : List Sample) : List Sample :=
  if chunk.length ≥ OVERLAP_SAMPLES then chunk.drop (chunk.length - OVERLAP_SAMPLES)
  else chunk

/-- Handling of one inbound text control message (server.py lines 113-126):
`JSONDecodeError` sends one error frame and continues; a parsed object is
dispatched on its `type` value, with no branch (and no frame) for an
unrecognized value; a parsed non-object raises `AttributeError` at `cmd.get`,
which nothing catches. -/
def textStep (session : Session) : ControlParse → StepResult
  | .malformed => .ok session [Frame.error "Invalid JSON"] []
  | .nonObject => .fault session [] [] "AttributeError"
  | .object ty =>
    if ty = some "start" then .ok session.reset [] []
    else if ty = some "stop" then .ok session.stop [] []
    else .ok session [] []

/-- Handling of one inbound binary audio message (server.py lines 129-159):
audio outside a session is ignored; `n_samples = len(message) // 4` and a
zero-sample payload is skipped; `np.frombuffer` decodes (raising on a length
that is not a multiple of 4); the previous overlap is prepended when non-empty;
the overlap is updated to the chunk tail BEFORE the transcription call; the
engine is invoked on the stitched buffer and a transcript frame is sent exactly
when the returned text is non-empty (`if text:`). -/
def binaryStep (engine : Engine) (session : Session) (payload : List UInt8) :
    StepResult :=
  if session.active = false then .ok session [] []
  else
    let n_samples := payload.length / 4
    if n_samples = 0 then .ok session [] []
    else
      match frombuffer payload with
      | .error e => .fault session [] [] e
      | .ok chunk =>
        let audio := if session.overlap.length > 0 then session.overlap ++ chunk else chunk
        let session1 : Session := { session with overlap := codeOverlapUpdate chunk }
        match engine audio with
        | .error e => .fault session1 [] [audio] e
        | .ok text =>
          if text = "" then .ok session1 [] [audio]
          else .ok session1 [Frame.transcript text false] [audio]

/-- One iteration of the handler's `async for` loop (server.py lines 111-159). -/
def step (engine : Engine) (session : Session) : Msg → StepResult
  | .text p => textStep session p
  | .binary payload => binaryStep engine session payload

/-- Trace of a whole handler run: final session state, every frame sent, every
audio buffer passed to the engine, and the uncaught exception that terminated
the handler, if any. -/
structure RunResult where
  state : Session
  sent : List Frame
  calls : List (List Sample)
  faulted : Option String
  deriving Repr, DecidableEq

/-- The handler's message loop over a list of inbound messages: each message is
processed sequentially; an uncaught exception stops the loop (the remaining
messages are never processed, matching the handler coroutine dying). -/
def run (engine : Engine) : Session → List Msg → RunResult
  | s, [] => { state := s, sent := [], calls := [], faulted := none }
  | s, m :: ms =>
    match step engine s m with
    | .ok s1 sent1 calls1 =>
      let r := run engine s1 ms
      { state := r.state, sent := sent1 ++ r.sent, calls := calls1 ++ r.calls,
        faulted := r.faulted }
    | .fault s1 sent1 calls1 e =>
      { state := s1, sent := sent1, calls := calls1, faulted := some e }

/-- An engine that always returns the empty text (no speech detected). -/
def engineEmpty : Engine := fun _ => Except.ok ""

/-- An engine whose transcribe call always raises. -/
def engineBoom : Engine := fun _ => Except.error "boom"

/-- Inverse of `group4`: serialize samples back to their little-endian bytes,
as `audio.tobytes()` does on the client side (test_client.py line 69). -/
def encodeSamples : List Sample → List UInt8
  | [] => []
  | (b0, b1, b2, b3) :: rest => b0 :: b1 :: b2 :: b3 :: encodeSamples rest

/-- The spec's description of the new overlap: the last `OVERLAP_SAMPLES`
samples of the chunk, or the entire chunk if it has fewer. -/
def specLastOverlap (chunk : List Sample) : List Sample :=
  chunk.drop (chunk.length - OVERLAP_SAMPLES)

theorem encodeSamples_length (c : List Sample) :
    (encodeSamples c).length = 4 * c.length := by
  induction c with
  | nil => rfl
  | cons s rest ih =>
    obtain ⟨b0, b1, b2, b3⟩ := s
    simp [encodeSamples, ih]
    ring

theorem group4_encodeSamples (c : List Sample) : group4 (encodeSamples c) = c := by
  induction c with
  | nil => rfl
  | cons s rest ih =>
    obtain ⟨b0, b1, b2, b3⟩ := s
    simp [encodeSamples, group4, ih]

theorem codeOverlapUpdate_eq_spec (c : List Sample) :
    codeOverlapUpdate c = specLastOverlap c := by
  unfold codeOverlapUpdate specLastOverlap
  split
  · rfl
  · rename_i h
    have : c.length - OVERLAP_SAMPLES = 0 := by omega
    simp [this]

theorem codeOverlapUpdate_length_le (c : List Sample) :
    (codeOverlapUpdate c).length ≤ OVERLAP_SAMPLES := by
  unfold codeOverlapUpdate
  split
  · simp only [List.length_drop]
    omega
  · rename_i h
    omega

theorem step_text_eq (engine : Engine) (s : Session) (p : ControlParse) :
    step engine s (Msg.text p) = textStep s p := rfl

theorem step_binary_eq (engine : Engine) (s : Session) (payload : List UInt8) :
    step engine s (Msg.binary payload) = binaryStep engine s payload := rfl

theorem binaryStep_inactive (engine : Engine) (s : Session) (payload : List UInt8)
    (h : s.active = false) : binaryStep engine s payload = .ok s [] [] := by
  simp [binaryStep, h]

theorem binaryStep_zeroSamples (engine : Engine) (s : Session) (payload : List UInt8)
    (h : s.active = true) (h0 : payload.length / 4 = 0) :
    binaryStep engine s payload = .ok s [] [] := by
  simp [binaryStep, h, h0]

theorem binaryStep_badLength (engine : Engine) (s : Session) (payload : List UInt8)
    (h : s.active = true) (h4 : 4 ≤ payload.length) (hm : payload.length % 4 ≠ 0) :
    binaryStep engine s payload =
      .fault s [] [] "buffer size must be a multiple of element size" := by
  have h0 : ¬payload.length / 4 = 0 := by omega
  simp [binaryStep, h, h0, frombuffer, hm]

theorem binaryStep_active (engine : Engine) (s : Session) (payload : List UInt8)
    (h : s.active = true) (h4 : 4 ≤ payload.length) (hm : payload.length % 4 = 0) :
    binaryStep engine s payload =
      match engine (if s.overlap.length > 0 then s.overlap ++ group4 payload
          else group4 payload) with
      | .error e =>
        .fault { s with overlap := codeOverlapUpdate (group4 payload) } []
          [if s.overlap.length > 0 then s.overlap ++ group4 payload else group4 payload] e
      | .ok text =>
        if text = "" then
          .ok { s with overlap := codeOverlapUpdate (group4 payload) } []
            [if s.overlap.length > 0 then s.overlap ++ group4 payload else group4 payload]
        else
          .ok { s with overlap := codeOverlapUpdate (group4 payload) }
            [Frame.transcript text false]
            [if s.overlap.length > 0 then s.overlap ++ group4 payload else group4 payload] := by
  have h0 : ¬payload.length / 4 = 0 := by omega
  simp [binaryStep, h, h0, frombuffer, hm]

theorem step_overlap_le (engine : Engine) (s : Session) (m : Msg)
    (h : s.overlap.length ≤ OVERLAP_SAMPLES) :
    (step engine s m).stateOf.overlap.length ≤ OVERLAP_SAMPLES := by
  cases m with
  | text p =>
    rw [step_text_eq]
    cases p with
    | malformed => simpa [textStep, StepResult.stateOf] using h
    | nonObject => simpa [textStep, StepResult.stateOf] using h
    | object ty =>
      by_cases h1 : ty = some "start"
      · simp [textStep, h1, Session.reset, StepResult.stateOf]
      · by_cases h2 : ty = some "stop"
        · simp [textStep, h1, h2, Session.stop, StepResult.stateOf]
        · simpa [textStep, h1, h2, StepResult.stateOf] using h
  | binary payload =>
    rw [step_binary_eq]
    by_cases ha : s.active = true
    · by_cases h0 : payload.length / 4 = 0
      · simpa [binaryStep_zeroSamples engine s payload ha h0, StepResult.stateOf] using h
      · have h4 : 4 ≤ payload.length := by omega
        by_cases hm : payload.length % 4 = 0
        · rw [binaryStep_active engine s payload ha h4 hm]
          cases heng : engine (if s.overlap.length > 0 then s.overlap ++ group4 payload
              else group4 payload) with
          | error e =>
            simpa [StepResult.stateOf] using codeOverlapUpdate_length_le (group4 payload)
          | ok text =>
            by_cases ht : text = ""
            · simpa [ht, StepResult.stateOf] using codeOverlapUpdate_length_le (group4 payload)
            · simpa [ht, StepResult.stateOf] using codeOverlapUpdate_length_le (group4 payload)
        · simpa [binaryStep_badLength engine s payload ha h4 hm, StepResult.stateOf] using h
    · have ha2 : s.active = false := by
        cases hb : s.active
        · rfl
        · exact absurd hb ha
      simpa [binaryStep_inactive engine s payload ha2, StepResult.stateOf] using h

theorem run_overlap_le (engine : Engine) (s : Session) (msgs : List Msg)
    (h : s.overlap.length ≤ OVERLAP_SAMPLES) :
    (run engine s msgs).state.overlap.length ≤ OVERLAP_SAMPLES := by
  induction msgs generalizing s with
  | nil => simpa [run] using h
  | cons m ms ih =>
    have hstep := step_overlap_le engine s m h
    cases hs : step engine s m with
    | ok s1 sent1 calls1 =>
      rw [hs] at hstep
      simp only [run, hs]
      exact ih s1 hstep
    | fault s1 sent1 calls1 e =>
      rw [hs] at hstep
      simpa [run, hs, StepResult.stateOf] using hstep

theorem step_no_ready (engine : Engine) (s : Session) (m : Msg) :
    Frame.ready ∉ (step engine s m).sentOf := by
  cases m with
  | text p =>
    rw [step_text_eq]
    cases p with
    | malformed => simp [textStep, StepResult.sentOf]
    | nonObject => simp [textStep, StepResult.sentOf]
    | object ty =>
      by_cases h1 : ty = some "start"
      · simp [textStep, h1, StepResult.sentOf]
      · by_cases h2 : ty = some "stop"
        · simp [textStep, h1, h2, StepResult.sentOf]
        · simp [textStep, h1, h2, StepResult.sentOf]
  | binary payload =>
    rw [step_binary_eq]
    by_cases ha : s.active = true
    · by_cases h0 : payload.length / 4 = 0
      · simp [binaryStep_zeroSamples engine s payload ha h0, StepResult.sentOf]
      · have h4 : 4 ≤ payload.length := by omega
        by_cases hm : payload.length % 4 = 0
        · rw [binaryStep_active engine s payload ha h4 hm]
          cases heng : engine (if s.overlap.length > 0 then s.overlap ++ group4 payload
              else group4 payload) with
          | error e => simp [StepResult.sentOf]
          | ok text =>
            by_cases ht : text = ""
            · simp [ht, StepResult.sentOf]
            · simp [ht, StepResult.sentOf]
        · simp [binaryStep_badLength engine s payload ha h4 hm, StepResult.sentOf]
    · have ha2 : s.active = false := by
        cases hb : s.active
        · rfl
        · exact absurd hb ha
      simp [binaryStep_inactive engine s payload ha2, StepResult.sentOf]

theorem run_no_ready (engine : Engine) (s : Session) (msgs : List Msg) :
    Frame.ready ∉ (run engine s msgs).sent := by
  induction msgs generalizing s with
  | nil => simp [run]
  | cons m ms ih =>
    have hstep := step_no_ready engine s m
    cases hs : step engine s m with
    | ok s1 sent1 calls1 =>
      rw [hs] at hstep
      simp only [run, hs, List.mem_append]
      intro hmem
      rcases hmem with hmem | hmem
      · exact hstep hmem
      · exact ih s1 hmem
    | fault s1 sent1 calls1 e =>
      rw [hs] at hstep
      simpa [run, hs, StepResult.sentOf] using hstep

/-- C4: the claim says every connection accepted after the engine is loaded
receives a per-connection ready text frame.  The handler sends nothing before
its message loop and no code path sends a ready frame (the only readiness
signal in the code is the READY line printed to stdout in `main`, server.py
line 192), so no run of the handler ever has a ready frame among its sent
frames.  This contradicts the claim and the module docstring (server.py line
13), which both document the ready response. -/
theorem C4_no_ready_frame (engine : Engine) (msgs : List Msg) :
    Frame.ready ∉ (run engine Session.init msgs).sent :=
  run_no_ready engine Session.init msgs

/-- C6: from the initial session state, after any sequence of inbound messages
(under any engine, including raising ones), the overlap length satisfies
0 ≤ len(overlap) ≤ OVERLAP_SAMPLES — including at the state reached when the
run ends in an uncaught exception. -/
theorem C6_overlap_invariant (engine : Engine) (msgs : List Msg) :
    0 ≤ (run engine Session.init msgs).state.overlap.length ∧
      (run engine Session.init msgs).state.overlap.length ≤ OVERLAP_SAMPLES :=
  ⟨Nat.zero_le _, run_overlap_le engine Session.init msgs (Nat.zero_le _)⟩

/-- C7: for an audio chunk processed while active (≥ 4 bytes, a multiple of 4),
when the engine returns text `t` for the stitched buffer, a transcript frame is
sent if and only if `t` is non-empty — the frames sent are exactly
`[transcript t false]` for non-empty `t` and `[]` (no frame at all) for empty
`t` (server.py lines 154-159, `if text:`). -/
theorem C7_transcript_iff_nonempty (engine : Engine) (s : Session)
    (payload : List UInt8) (t : String) (hact : s.active = true)
    (h4 : 4 ≤ payload.length) (hm : payload.length % 4 = 0)
    (heng : engine (if s.overlap.length > 0 then s.overlap ++ group4 payload
        else group4 payload) = Except.ok t) :
    (step engine s (Msg.binary payload)).sentOf =
      if t = "" then [] else [Frame.transcript t false] := by
  rw [step_binary_eq, binaryStep_active engine s payload hact h4 hm, heng]
  by_cases ht : t = ""
  · simp [ht, StepResult.sentOf]
  · simp [ht, StepResult.sentOf]

/-- C7 witness: a 1-sample chunk on a fresh active session with an engine
returning "hello" sends exactly one transcript frame. -/
theorem C7_transcript_iff_nonempty_witness :
    (step (fun _ => Except.ok "hello") { active := true, overlap := [] }
        (Msg.binary [0, 0, 0, 0])).sentOf =
      if "hello" = "" then [] else [Frame.transcript "hello" false] :=
  C7_transcript_iff_nonempty (fun _ => Except.ok "hello")
    { active := true, overlap := [] } [0, 0, 0, 0] "hello" rfl (by decide) (by decide) rfl

/-- C8: a binary message received while the session is idle is silently
discarded — the step returns the same session state, sends no frame and makes
no engine call (server.py lines 130-131). -/
theorem C8_idle_audio_discarded (engine : Engine) (s : Session)
    (payload : List UInt8) (h : s.active = false) :
    step engine s (Msg.binary payload) = StepResult.ok s [] [] := by
  rw [step_binary_eq]
  exact binaryStep_inactive engine s payload h

/-- C8 witness: audio on a fresh (idle) session is a silent no-op. -/
theorem C8_idle_audio_discarded_witness :
    step engineEmpty Session.init (Msg.binary [0, 0, 0, 0]) =
      StepResult.ok Session.init [] [] :=
  C8_idle_audio_discarded engineEmpty Session.init [0, 0, 0, 0] rfl

/-- C9: a binary message of fewer than 4 bytes received while active decodes to
zero samples (`n_samples = len // 4 = 0`) and is a silent no-op: same state, no
frame, no engine call (server.py lines 134-136). -/
theorem C9_short_binary_noop (engine : Engine) (s : Session)
    (payload : List UInt8) (hact : s.active = true) (hlen : payload.length < 4) :
    payload.length / 4 = 0 ∧
      step engine s (Msg.binary payload) = StepResult.ok s [] [] := by
  refine ⟨by omega, ?_⟩
  rw [step_binary_eq]
  exact binaryStep_zeroSamples engine s payload hact (by omega)

/-- C9 witness: a 3-byte message while active is a silent no-op. -/
theorem C9_short_binary_noop_witness :
    ([0, 0, 0] : List UInt8).length / 4 = 0 ∧
      step engineEmpty { active := true, overlap := [] } (Msg.binary [0, 0, 0]) =
        StepResult.ok { active := true, overlap := [] } [] [] :=
  C9_short_binary_noop engineEmpty { active := true, overlap := [] } [0, 0, 0]
    rfl (by decide)

/-- C10: for an audio chunk of at least one sample processed while active, the
overlap of the resulting session state equals the chunk's tail (its last
OVERLAP_SAMPLES samples, or the whole chunk if shorter) for EVERY engine —
including an engine that returns empty text and an engine that raises (the
fault outcome carries the state at the raise point), because the assignment at
server.py line 148 precedes the transcription call at line 152. -/
theorem C10_overlap_advances_before_transcribe (engine : Engine) (s : Session)
    (payload : List UInt8) (hact : s.active = true)
    (h4 : 4 ≤ payload.length) (hm : payload.length % 4 = 0) :
    (step engine s (Msg.binary payload)).stateOf.overlap =
      specLastOverlap (group4 payload) := by
  rw [step_binary_eq, binaryStep_active engine s payload hact h4 hm]
  cases heng : engine (if s.overlap.length > 0 then s.overlap ++ group4 payload
      else group4 payload) with
  | error e => simp [StepResult.stateOf, codeOverlapUpdate_eq_spec]
  | ok text =>
    by_cases ht : text = ""
    · simp [ht, StepResult.stateOf, codeOverlapUpdate_eq_spec]
    · simp [ht, StepResult.stateOf, codeOverlapUpdate_eq_spec]

/-- C10 witness: even with a raising engine, the at-fault state's overlap is the
chunk tail. -/
theorem C10_overlap_advances_before_transcribe_witness :
    (step engineBoom { active := true, overlap := [] }
        (Msg.binary [1, 2, 3, 4])).stateOf.overlap =
      specLastOverlap (group4 [1, 2, 3, 4]) :=
  C10_overlap_advances_before_transcribe engineBoom { active := true, overlap := [] }
    [1, 2, 3, 4] rfl (by decide) (by decide)

/-- C1 counterexample: with an engine whose transcribe call raises, processing a
4-byte chunk on an active session is a FAULT with no frame sent — the handler
has no try/except around the call at server.py line 152 (the `try` at line 110
catches only connection-closed exceptions).  In a run, the fault terminates the
loop: a subsequent chunk is never processed (only one engine call is made and
the run records the uncaught exception).  This refutes the claim that the error
is caught, reported as an error frame, and the connection stays open. -/
theorem C1_engine_error_counterexample :
    (step engineBoom { active := true, overlap := [] }
        (Msg.binary [0, 0, 0, 0])).isFault = true ∧
      (step engineBoom { active := true, overlap := [] }
        (Msg.binary [0, 0, 0, 0])).sentOf = [] ∧
      (run engineBoom Session.init
          [Msg.text (ControlParse.object (some "start")), Msg.binary [0, 0, 0, 0],
            Msg.binary [0, 0, 0, 0]]).faulted = some "boom" ∧
      (run engineBoom Session.init
          [Msg.text (ControlParse.object (some "start")), Msg.binary [0, 0, 0, 0],
            Msg.binary [0, 0, 0, 0]]).calls.length = 1 ∧
      (run engineBoom Session.init
          [Msg.text (ControlParse.object (some "start")), Msg.binary [0, 0, 0, 0],
            Msg.binary [0, 0, 0, 0]]).sent = [] := by
  decide

/-- C1 amended: if the engine's transcribe call raises while processing an audio
chunk, the handler does not catch it: no error frame (nor any frame) is sent,
the handler terminates with the uncaught exception (closing the connection, so
subsequent messages are not processed), and at the raise point the session's
overlap has already been updated to the chunk's tail. -/
theorem C1_engine_error_amended (engine : Engine) (s : Session)
    (payload : List UInt8) (e : String) (hact : s.active = true)
    (h4 : 4 ≤ payload.length) (hm : payload.length % 4 = 0)
    (heng : engine (if s.overlap.length > 0 then s.overlap ++ group4 payload
        else group4 payload) = Except.error e) :
    step engine s (Msg.binary payload) =
      StepResult.fault { s with overlap := codeOverlapUpdate (group4 payload) } []
        [if s.overlap.length > 0 then s.overlap ++ group4 payload else group4 payload]
        e := by
  rw [step_binary_eq, binaryStep_active engine s payload hact h4 hm, heng]

/-- C1 amended witness: concrete raising engine on a fresh active session. -/
theorem C1_engine_error_amended_witness :
    (step engineBoom { active := true, overlap := [] }
        (Msg.binary [1, 2, 3, 4])).isFault = true := by
  rw [C1_engine_error_amended engineBoom { active := true, overlap := [] }
    [1, 2, 3, 4] "boom" rfl (by decide) (by decide) rfl]
  rfl

/-- C2 counterexample: a 5-byte binary payload on an active session is NOT
truncated to 4 bytes — `np.frombuffer` (called without a `count` argument,
server.py line 138) raises ValueError, so the step faults and no engine call on
any truncated prefix is made, refuting "never faults the connection". -/
theorem C2_truncation_counterexample :
    (step engineEmpty { active := true, overlap := [] }
        (Msg.binary [0, 0, 0, 0, 0])).isFault = true ∧
      (step engineEmpty { active := true, overlap := [] }
        (Msg.binary [0, 0, 0, 0, 0])).callsOf = [] := by
  decide

/-- C2 amended: while the session is active, a payload of fewer than 4 bytes
decodes to zero samples (`len // 4 = 0`) and is silently skipped; a payload of
at least 4 bytes whose length is NOT a multiple of 4 is not truncated —
`np.frombuffer` raises an uncaught ValueError, so no frame is sent and the
connection faults, with session state unchanged at the raise point. -/
theorem C2_nonmultiple_amended (engine : Engine) (s : Session)
    (payload : List UInt8) (hact : s.active = true) :
    (payload.length < 4 →
      step engine s (Msg.binary payload) = StepResult.ok s [] []) ∧
    (4 ≤ payload.length → payload.length % 4 ≠ 0 →
      step engine s (Msg.binary payload) =
        StepResult.fault s [] [] "buffer size must be a multiple of element size") := by
  constructor
  · intro hlt
    rw [step_binary_eq]
    exact binaryStep_zeroSamples engine s payload hact (by omega)
  · intro h4 hm
    rw [step_binary_eq]
    exact binaryStep_badLength engine s payload hact h4 hm

/-- C2 amended witness: a 5-byte payload faults with the ValueError message. -/
theorem C2_nonmultiple_amended_witness :
    step engineEmpty { active := true, overlap := [] } (Msg.binary [0, 0, 0, 0, 0]) =
      StepResult.fault { active := true, overlap := [] } [] []
        "buffer size must be a multiple of element size" :=
  (C2_nonmultiple_amended engineEmpty { active := true, overlap := [] }
    [0, 0, 0, 0, 0] rfl).2 (by decide) (by decide)

/-- C3 counterexample: a text message that parses to a JSON object with the
unrecognized type "ping" falls through both command branches (server.py lines
120-126 have no else branch) — the step sends NO frame at all, refuting the
claim that exactly one error frame is sent for every unrecognized control
message. -/
theorem C3_unrecognized_counterexample :
    step engineEmpty Session.init (Msg.text (ControlParse.object (some "ping"))) =
      StepResult.ok Session.init [] [] := by
  decide

/-- C3 amended: a text message that fails JSON parsing yields exactly one error
frame ("Invalid JSON") with session state unchanged and the connection open; a
message that parses to a JSON object that is neither a start nor a stop command
is silently ignored — no frame, no state change; a message that parses to
non-object JSON raises an uncaught AttributeError at `cmd.get` (server.py line
120), faulting the connection with state unchanged at the raise point. -/
theorem C3_control_amended (engine : Engine) (s : Session) :
    (step engine s (Msg.text ControlParse.malformed) =
      StepResult.ok s [Frame.error "Invalid JSON"] []) ∧
    (∀ ty : Option String, ty ≠ some "start" → ty ≠ some "stop" →
      step engine s (Msg.text (ControlParse.object ty)) = StepResult.ok s [] []) ∧
    (step engine s (Msg.text ControlParse.nonObject) =
      StepResult.fault s [] [] "AttributeError") := by
  refine ⟨rfl, ?_, rfl⟩
  intro ty h1 h2
  rw [step_text_eq]
  simp [textStep, h1, h2]

/-- C3 amended witness: an object message with no type key is silently
ignored. -/
theorem C3_control_amended_witness :
    step engineEmpty Session.init (Msg.text (ControlParse.object none)) =
      StepResult.ok Session.init [] [] :=
  (C3_control_amended engineEmpty Session.init).2.1 none (by decide) (by decide)

/-- Modelled from the spec's words, as the refinement target for the stitching
claim: the sequence of stitched buffers passed to the engine for a sequence of
chunks — each buffer is the carried overlap concatenated with the chunk, the
carried overlap for the next chunk is the last OVERLAP_SAMPLES samples of the
current chunk (or all of it if shorter), and the initial carry is empty. -/
def specStitchedCalls : List Sample → List (List Sample) → List (List Sample)
  | _, [] => []
  | prev, c :: cs => (prev ++ c) :: specStitchedCalls (specLastOverlap c) cs

theorem stitch_if_eq (ov c : List Sample) :
    (if ov.length > 0 then ov ++ c else c) = ov ++ c := by
  cases ov <;> simp

theorem run_calls_stitched (f : List Sample → String) (ov : List Sample)
    (chunks : List (List Sample)) (h : ∀ c ∈ chunks, c ≠ []) :
    (run (fun a => Except.ok (f a)) { active := true, overlap := ov }
        (chunks.map (fun c => Msg.binary (encodeSamples c)))).calls =
      specStitchedCalls ov chunks := by
  induction chunks generalizing ov with
  | nil => simp [run, specStitchedCalls]
  | cons c cs ih =>
    have hc : c ≠ [] := h c (List.mem_cons_self c cs)
    have hcs : ∀ x ∈ cs, x ≠ [] := fun x hx => h x (List.mem_cons_of_mem c hx)
    have hlen : (encodeSamples c).length = 4 * c.length := encodeSamples_length c
    have hcl : c.length ≠ 0 := fun hh => hc (List.length_eq_zero.mp hh)
    have h4 : 4 ≤ (encodeSamples c).length := by omega
    have hm : (encodeSamples c).length % 4 = 0 := by omega
    simp only [List.map_cons, run]
    rw [step_binary_eq,
      binaryStep_active (fun a => Except.ok (f a)) { active := true, overlap := ov }
        (encodeSamples c) rfl h4 hm, group4_encodeSamples]
    simp only [stitch_if_eq]
    by_cases ht : f (ov ++ c) = ""
    · simp only [ht, if_pos rfl]
      simp only [codeOverlapUpdate_eq_spec]
      rw [specStitchedCalls]
      simpa using ih (specLastOverlap c) hcs
    · simp only [if_neg ht]
      simp only [codeOverlapUpdate_eq_spec]
      rw [specStitchedCalls]
      simpa using ih (specLastOverlap c) hcs

/-- C5: for every sequence of non-empty chunks sent after a start command (under
any non-raising engine), the sequence of stitched buffers passed to the engine
is exactly the spec's: chunk 1 gets no overlap prepended, and chunk k+1 is the
last OVERLAP_SAMPLES samples of chunk k (or all of chunk k if shorter)
concatenated with chunk k+1 — so each buffer's length is the carried overlap's
length plus the chunk's length. -/
theorem C5_stitching (f : List Sample → String) (s0 : Session)
    (chunks : List (List Sample)) (h : ∀ c ∈ chunks, c ≠ []) :
    (run (fun a => Except.ok (f a)) s0
        (Msg.text (ControlParse.object (some "start")) ::
          chunks.map (fun c => Msg.binary (encodeSamples c)))).calls =
      specStitchedCalls [] chunks := by
  have hrun := run_calls_stitched f [] chunks h
  simp only [run, step_text_eq, textStep, if_pos rfl]
  simpa [Session.reset] using hrun

/-- C5 witness: two concrete one-sample chunks — the first call is chunk 1
alone, the second is chunk 1 (shorter than OVERLAP_SAMPLES, so carried whole)
followed by chunk 2. -/
theorem C5_stitching_witness :
    (run (fun a => Except.ok ((fun _ => "") a)) Session.init
        (Msg.text (ControlParse.object (some "start")) ::
          ([[((0 : UInt8), (0 : UInt8), (0 : UInt8), (0 : UInt8))],
            [((1 : UInt8), (1 : UInt8), (1 : UInt8), (1 : UInt8))]].map
            (fun c => Msg.binary (encodeSamples c))))).calls =
      specStitchedCalls [] [[(0, 0, 0, 0)], [(1, 1, 1, 1)]] :=
  C5_stitching (fun _ => "") Session.init [[(0, 0, 0, 0)], [(1, 1, 1, 1)]] (by decide)

end LiveScribe
